import Mathlib

/-!
Verification of the LeveragePay backend (src/server.js).

The source is a minimal Express + Mongoose application:

* `models/User.js`: `UserSchema` with `username` (String, required, unique),
  `email` (String, required, unique), `password` (String, required) — stored raw.
* `models/Payment.js`: `PaymentSchema` with `userId` (ObjectId ref User, NOT
  required), `amount` (Number, required), `currency` (String, required),
  `status` (String, enum [pending, completed, failed], default pending),
  `createdAt` (Date, default Date.now).
* `controllers/userController.js`: `POST /register` does
  `new User(req.body); await user.save(); res.status(201).send(\x7b user \x7d)`,
  any error is sent with `res.status(400)`.  `POST /login` is a stub that
  answers `res.send('Login logic to be implemented')` (status 200).
* `controllers/paymentController.js`: `POST /` does
  `new Payment(req.body); await payment.save(); res.status(201)`, errors go to
  400.  `GET /user/:userId` answers
  `Payment.find(\x7b userId: req.params.userId \x7d)` with status 200 and no
  `.sort()` clause.

The embedding below models Mongoose `save` as: apply schema defaults, run the
schema validators (`required` — which for Strings also rejects the empty
string — and `enum`), then insert, with the unique indexes on `username` and
`email` enforced atomically at insert.  MongoDB `find` without `.sort()` does
not guarantee any result order, so the GET endpoint is modelled by the
predicate `isValidListResponse`, which allows any permutation of the matching
documents; `getUserPayments` is the canonical natural-order (insertion-order)
instance of that contract.  Ids are opaque strings supplied as a fresh-id
argument; `Date.now` is a `now : Nat` argument.
-/

namespace LeveragePay

/-- A stored User document (models/User.js).  The schema has no
`passwordHash` field: the `password` field holds whatever string was
supplied, unhashed (the source comments "In real applications, you should
hash this"). -/
structure User where
  id : String
  username : String
  email : String
  password : String
deriving DecidableEq, Repr

/-- A stored Payment document (models/Payment.js).  `userId` is optional
because the schema does not mark it `required`; `status` is a plain string in
the document, constrained only by the schema `enum` validator at save time. -/
structure Payment where
  id : String
  userId : Option String
  amount : Int
  currency : String
  status : String
  createdAt : Nat
deriving DecidableEq, Repr

/-- The two MongoDB collections. -/
structure AppState where
  users : List User
  payments : List Payment
deriving DecidableEq, Repr

def emptyState : AppState := ⟨[], []⟩

/-- Request body of `POST /api/users/register` (fields of UserSchema). -/
structure RegisterBody where
  username : Option String
  email : Option String
  password : Option String
deriving DecidableEq, Repr

/-- Request body of `POST /api/users/login` (ignored by the stub handler). -/
structure LoginBody where
  usernameOrEmail : Option String
  password : Option String
deriving DecidableEq, Repr

/-- Request body of `POST /api/payments` (fields of PaymentSchema; `_id` is
generated, so it is not a body field). -/
structure PaymentBody where
  userId : Option String
  amount : Option Int
  currency : Option String
  status : Option String
  createdAt : Option Nat
deriving DecidableEq, Repr

/-- Mongoose `required` validator for a String path: the value must be
present and non-empty. -/
def reqStr (o : Option String) : Bool :=
  match o with
  | some s => s ≠ ""
  | none => false

/-- The PaymentSchema `enum` validator for `status`. -/
def validStatus (s : String) : Bool :=
  s = "pending" || s = "completed" || s = "failed"

/-- Outcome of the register handler: `ok` is the 201 response body
`\x7b user \x7d` (the whole stored document), the error cases are what the
`catch` block sends with status 400. -/
inductive RegisterOutcome where
  | ok (user : User)
  | validationError
  | duplicateKey (field : String)
deriving DecidableEq, Repr

/-- `POST /api/users/register`: `new User(req.body); save()`.  Validators run
first (all three String paths are `required`); then the unique indexes on
`username` and `email` reject duplicates (duplicate-key errors name the
offending index, `username` first in schema order); every error is sent with
status 400 by the catch block; success sends 201 with the full user. -/
def registerHandler (s : AppState) (b : RegisterBody) (newId : String) :
    (Nat × RegisterOutcome) × AppState :=
  if reqStr b.username && reqStr b.email && reqStr b.password then
    let uname := b.username.getD ""
    let em := b.email.getD ""
    if s.users.any (fun u => u.username = uname) then
      ((400, .duplicateKey "username"), s)
    else if s.users.any (fun u => u.email = em) then
      ((400, .duplicateKey "email"), s)
    else
      let u : User := ⟨newId, uname, em, b.password.getD ""⟩
      ((201, .ok u), { s with users := s.users ++ [u] })
  else ((400, .validationError), s)

/-- `POST /api/users/login`: the source is a stub — it ignores the state and
the body and answers `res.send('Login logic to be implemented')`, which is
status 200 with that string. -/
def loginHandler (_s : AppState) (_b : LoginBody) : Nat × String :=
  (200, "Login logic to be implemented")

/-- Outcome of the payment-create handler: `created` is the 201 response body
`\x7b payment \x7d`; `validationError` is the mongoose validation error sent
with status 400 by the catch block. -/
inductive CreateOutcome where
  | created (p : Payment)
  | validationError
deriving DecidableEq, Repr

/-- PaymentSchema validators that `save()` runs: `amount` required (Number:
present), `currency` required (String: present and non-empty), `status`
within the enum after the default `pending` is applied.  `userId` has no
validator at all. -/
def paymentBodyOk (b : PaymentBody) : Bool :=
  b.amount.isSome && reqStr b.currency && validStatus (b.status.getD "pending")

/-- `new Payment(req.body)` with defaults applied: `status` defaults to
`pending`, `createdAt` defaults to `Date.now` (the `now` argument), `_id` is
freshly generated (`newId`). -/
def buildPayment (b : PaymentBody) (now : Nat) (newId : String) : Payment :=
  ⟨newId, b.userId, b.amount.getD 0, b.currency.getD "",
    b.status.getD "pending", b.createdAt.getD now⟩

/-- `POST /api/payments`: `new Payment(req.body); save()`; 201 with the
stored document on success, 400 on any validation error.  There is no
referential check of `userId` against the Users collection and no sign check
on `amount`. -/
def createPaymentHandler (s : AppState) (b : PaymentBody) (now : Nat)
    (newId : String) : (Nat × CreateOutcome) × AppState :=
  if paymentBodyOk b then
    let p := buildPayment b now newId
    ((201, .created p), { s with payments := s.payments ++ [p] })
  else ((400, .validationError), s)

/-- The documents matched by the query `\x7b userId: uid \x7d`, in insertion
(natural) order.  Documents whose `userId` field is absent do not match. -/
def paymentsFor (s : AppState) (uid : String) : List Payment :=
  s.payments.filter (fun p => p.userId = some uid)

/-- `GET /api/payments/user/:userId` in natural order: status 200 with the
matching documents; the handler never consults the Users collection and has
no 404 branch. -/
def getUserPayments (s : AppState) (uid : String) : Nat × List Payment :=
  (200, paymentsFor s uid)

/-- Contract of `GET /api/payments/user/:userId`: the query has no `.sort()`,
and MongoDB guarantees no order for an unsorted `find`, so a response is
valid exactly when its status is 200 and its body is some permutation of the
matching documents. -/
def isValidListResponse (s : AppState) (uid : String)
    (resp : Nat × List Payment) : Prop :=
  resp.1 = 200 ∧ resp.2.Perm (paymentsFor s uid)

/-- Formalisation of the spec phrase "ordered by createdAt ascending". -/
def sortedByCreatedAt : List Payment → Bool
  | [] => true
  | [_] => true
  | a :: b :: rest => a.createdAt ≤ b.createdAt && sortedByCreatedAt (b :: rest)

/-- States reachable from the empty database through the state-changing
handlers (login and the GET listing do not write). -/
inductive Reachable : AppState → Prop
  | init : Reachable emptyState
  | register (s : AppState) (b : RegisterBody) (newId : String) :
      Reachable s → Reachable (registerHandler s b newId).2
  | create (s : AppState) (b : PaymentBody) (now : Nat) (newId : String) :
      Reachable s → Reachable (createPaymentHandler s b now newId).2

/-! ### Helper lemmas -/

theorem registerHandler_payments (s : AppState) (b : RegisterBody)
    (newId : String) : (registerHandler s b newId).2.payments = s.payments := by
  simp only [registerHandler]
  split_ifs
  all_goals rfl

theorem createPaymentHandler_ok (s : AppState) (b : PaymentBody) (now : Nat)
    (newId : String) (h : paymentBodyOk b = true) :
    createPaymentHandler s b now newId
      = ((201, .created (buildPayment b now newId)),
         { s with payments := s.payments ++ [buildPayment b now newId] }) := by
  simp [createPaymentHandler, h]

theorem createPaymentHandler_payments (s : AppState) (b : PaymentBody)
    (now : Nat) (newId : String) :
    (createPaymentHandler s b now newId).2.payments
      = if paymentBodyOk b then s.payments ++ [buildPayment b now newId]
        else s.payments := by
  unfold createPaymentHandler
  split
  all_goals rfl

/-! ### C1 — register output and the raw password -/

/-- C1 counterexample: registering alice with password "secret" on an empty
database succeeds with 201, but the returned view is the full stored user
document whose `password` field equals the raw password "secret" — so the
view does contain the raw password, contrary to the claim. -/
theorem C1_counterexample :
    (registerHandler emptyState ⟨some "alice", some "a@x.com", some "secret"⟩
        "u1").1
      = (201, RegisterOutcome.ok ⟨"u1", "alice", "a@x.com", "secret"⟩)
    ∧ (User.mk "u1" "alice" "a@x.com" "secret").password = "secret" := by
  decide

/-- C1 amended: for every registration input whose username, email and
password are present and non-empty and whose username and email collide with
no stored user, register succeeds (201) and returns the full stored user
document — including the raw password in its `password` field (there is no
`passwordHash` field; the source stores the password unhashed). -/
theorem register_valid_returns_full_user
    (s : AppState) (un em pw newId : String)
    (hun : un ≠ "") (hem : em ≠ "") (hpw : pw ≠ "")
    (hu : s.users.any (fun u => u.username = un) = false)
    (he : s.users.any (fun u => u.email = em) = false) :
    registerHandler s ⟨some un, some em, some pw⟩ newId
      = ((201, .ok ⟨newId, un, em, pw⟩),
         { s with users := s.users ++ [⟨newId, un, em, pw⟩] })
    ∧ (User.mk newId un em pw).password = pw := by
  refine ⟨?_, rfl⟩
  simp [registerHandler, reqStr, hun, hem, hpw, hu, he]

/-- Witness for C1 amended at a concrete input. -/
theorem register_valid_returns_full_user_witness :
    registerHandler emptyState ⟨some "bob", some "b@x.com", some "pw2"⟩ "u9"
      = ((201, .ok ⟨"u9", "bob", "b@x.com", "pw2"⟩),
         { emptyState with users := [⟨"u9", "bob", "b@x.com", "pw2"⟩] })
    ∧ (User.mk "u9" "bob" "b@x.com" "pw2").password = "pw2" :=
  register_valid_returns_full_user emptyState "bob" "b@x.com" "pw2" "u9"
    (by decide) (by decide) (by decide) (by decide) (by decide)

/-! ### C2 — login responses -/

/-- C2 counterexample: with alice stored (password "pw"), a login attempt
with the wrong password is answered by the stub with status 200 and the
string "Login logic to be implemented" — not Unauthorized (401); the
non-existent-identifier attempt receives the same response. -/
theorem C2_counterexample :
    loginHandler ⟨[⟨"u1", "alice", "a@x.com", "pw"⟩], []⟩
        ⟨some "alice", some "wrong"⟩
      = (200, "Login logic to be implemented")
    ∧ loginHandler ⟨[⟨"u1", "alice", "a@x.com", "pw"⟩], []⟩
        ⟨some "ghost", some "pw"⟩
      = (200, "Login logic to be implemented")
    ∧ (200 : Nat) ≠ 401 := by
  exact ⟨rfl, rfl, by decide⟩

/-- C2 amended: the login handler is the source's stub, so every login
request — wrong password and non-existent identifier alike — receives the
identical response, status 200 with "Login logic to be implemented"; the two
responses are indistinguishable, but neither is Unauthorized (401). -/
theorem login_all_responses_identical (s₁ s₂ : AppState)
    (b₁ b₂ : LoginBody) :
    loginHandler s₁ b₁ = (200, "Login logic to be implemented")
    ∧ loginHandler s₁ b₁ = loginHandler s₂ b₂ := ⟨rfl, rfl⟩

/-! ### C3 — no referential check on userId -/

/-- C3 counterexample: on an empty database (no users at all, so "u1" does
not resolve to an existing user), createPayment with userId "u1" succeeds
with 201 and inserts the payment — it does not return NotFound and it does
insert. -/
theorem C3_counterexample :
    createPaymentHandler emptyState ⟨some "u1", some 5, some "USD", none, none⟩
        7 "p1"
      = ((201, .created ⟨"p1", some "u1", 5, "USD", "pending", 7⟩),
         ⟨[], [⟨"p1", some "u1", 5, "USD", "pending", 7⟩]⟩)
    ∧ emptyState.users = [] := by
  decide

/-- C3 amended: createPayment performs no referential check: for any body
passing the schema validators whose userId matches no stored user's id, the
handler still answers 201 and appends the payment to the store. -/
theorem createPayment_no_referential_check
    (s : AppState) (b : PaymentBody) (now : Nat) (newId uid : String)
    (hok : paymentBodyOk b = true) (huid : b.userId = some uid)
    (_hghost : s.users.any (fun u => u.id = uid) = false) :
    createPaymentHandler s b now newId
      = ((201, .created (buildPayment b now newId)),
         { s with payments := s.payments ++ [buildPayment b now newId] })
    ∧ (buildPayment b now newId).userId = some uid := by
  exact ⟨createPaymentHandler_ok s b now newId hok, by simp [buildPayment, huid]⟩

/-- Witness for C3 amended at a concrete input. -/
theorem createPayment_no_referential_check_witness :
    createPaymentHandler emptyState ⟨some "u7", some 5, some "EUR", none, none⟩
        3 "p7"
      = ((201, .created (buildPayment ⟨some "u7", some 5, some "EUR", none, none⟩ 3 "p7")),
         { emptyState with payments :=
             emptyState.payments
               ++ [buildPayment ⟨some "u7", some 5, some "EUR", none, none⟩ 3 "p7"] })
    ∧ (buildPayment ⟨some "u7", some 5, some "EUR", none, none⟩ 3 "p7").userId
      = some "u7" :=
  createPayment_no_referential_check emptyState
    ⟨some "u7", some 5, some "EUR", none, none⟩ 3 "p7" "u7"
    (by decide) rfl (by decide)

/-! ### C4 — non-positive amounts are accepted -/

/-- C4 counterexample: with a valid stored user u1, createPayment with
amount -5 and currency "USD" succeeds with 201 and stores the record — the
handler does not return ValidationError. -/
theorem C4_counterexample :
    createPaymentHandler ⟨[⟨"u1", "alice", "a@x.com", "pw"⟩], []⟩
        ⟨some "u1", some (-5), some "USD", none, none⟩ 7 "p1"
      = ((201, .created ⟨"p1", some "u1", -5, "USD", "pending", 7⟩),
         ⟨[⟨"u1", "alice", "a@x.com", "pw"⟩],
          [⟨"p1", some "u1", -5, "USD", "pending", 7⟩]⟩) := by
  decide

/-- C4 amended: the schema has no positivity constraint on amount, so any
body with amount ≤ 0 that has a non-empty currency and a valid (or absent)
status is accepted: 201, and the record is stored with that amount. -/
theorem createPayment_accepts_nonpositive_amount
    (s : AppState) (b : PaymentBody) (now : Nat) (newId : String) (a : Int)
    (ha : b.amount = some a) (_hneg : a ≤ 0)
    (hc : reqStr b.currency = true)
    (hst : validStatus (b.status.getD "pending") = true) :
    createPaymentHandler s b now newId
      = ((201, .created (buildPayment b now newId)),
         { s with payments := s.payments ++ [buildPayment b now newId] })
    ∧ (buildPayment b now newId).amount = a := by
  have hok : paymentBodyOk b = true := by
    simp [paymentBodyOk, ha, hc, hst]
  exact ⟨createPaymentHandler_ok s b now newId hok, by simp [buildPayment, ha]⟩

/-- Witness for C4 amended at a concrete input (amount -5). -/
theorem createPayment_accepts_nonpositive_amount_witness :
    createPaymentHandler ⟨[⟨"u1", "alice", "a@x.com", "pw"⟩], []⟩
        ⟨some "u1", some (-5), some "USD", none, none⟩ 7 "p9"
      = ((201, .created (buildPayment ⟨some "u1", some (-5), some "USD", none, none⟩ 7 "p9")),
         { (⟨[⟨"u1", "alice", "a@x.com", "pw"⟩], []⟩ : AppState) with
             payments :=
               [] ++ [buildPayment ⟨some "u1", some (-5), some "USD", none, none⟩ 7 "p9"] })
    ∧ (buildPayment ⟨some "u1", some (-5), some "USD", none, none⟩ 7 "p9").amount
      = -5 :=
  createPayment_accepts_nonpositive_amount
    ⟨[⟨"u1", "alice", "a@x.com", "pw"⟩], []⟩
    ⟨some "u1", some (-5), some "USD", none, none⟩ 7 "p9" (-5)
    rfl (by decide) (by decide) (by decide)

/-! ### C10 — a body without userId is accepted and stored -/

/-- C10: a POST /api/payments body that omits userId entirely (but carries a
required amount and currency) is accepted: 201, and the stored and returned
record has no userId, because the schema does not mark userId as required
and the handler inserts the body as-is. -/
theorem createPayment_without_userId :
    createPaymentHandler emptyState ⟨none, some 10, some "USD", none, none⟩
        7 "p1"
      = ((201, .created ⟨"p1", none, 10, "USD", "pending", 7⟩),
         ⟨[], [⟨"p1", none, 10, "USD", "pending", 7⟩]⟩)
    ∧ (Payment.mk "p1" none 10 "USD" "pending" 7).userId = none := by
  decide

/-! ### C5 — listing order -/

/-- C5 counterexample: with P1 (createdAt 1) and P2 (createdAt 2) stored for
u1, the response whose body is [P2, P1] is a valid response of the unsorted
`find` (status 200, a permutation of the matching documents), yet it is not
ordered by createdAt ascending and is not [P1, P2]. -/
theorem C5_counterexample :
    isValidListResponse
        ⟨[⟨"u1", "alice", "a@x.com", "pw"⟩],
         [⟨"p1", some "u1", 10, "USD", "pending", 1⟩,
          ⟨"p2", some "u1", 20, "USD", "pending", 2⟩]⟩ "u1"
        (200, [⟨"p2", some "u1", 20, "USD", "pending", 2⟩,
               ⟨"p1", some "u1", 10, "USD", "pending", 1⟩])
    ∧ sortedByCreatedAt
        [⟨"p2", some "u1", 20, "USD", "pending", 2⟩,
         ⟨"p1", some "u1", 10, "USD", "pending", 1⟩] = false
    ∧ ([⟨"p2", some "u1", 20, "USD", "pending", 2⟩,
        ⟨"p1", some "u1", 10, "USD", "pending", 1⟩] : List Payment)
      ≠ [⟨"p1", some "u1", 10, "USD", "pending", 1⟩,
         ⟨"p2", some "u1", 20, "USD", "pending", 2⟩] := by
  refine ⟨⟨rfl, ?_⟩, ?_, ?_⟩ <;> decide

/-- C5 amended: after creating P1 and then P2 for the same user in a state
with no prior payments for that user, every valid listing response contains
exactly P1 and P2 (its body is a permutation of [P1, P2]) with status 200;
but since the query has no sort, ascending createdAt order of the body is
not guaranteed. -/
theorem listPayments_after_two_creates
    (s : AppState) (uid : String) (b₁ b₂ : PaymentBody)
    (now₁ now₂ : Nat) (id₁ id₂ : String)
    (h₁ : paymentBodyOk b₁ = true) (h₂ : paymentBodyOk b₂ = true)
    (hu₁ : b₁.userId = some uid) (hu₂ : b₂.userId = some uid)
    (h0 : paymentsFor s uid = [])
    (resp : Nat × List Payment)
    (hresp : isValidListResponse
        (createPaymentHandler (createPaymentHandler s b₁ now₁ id₁).2
          b₂ now₂ id₂).2 uid resp) :
    resp.1 = 200
    ∧ resp.2.Perm [buildPayment b₁ now₁ id₁, buildPayment b₂ now₂ id₂] := by
  obtain ⟨h200, hperm⟩ := hresp
  refine ⟨h200, ?_⟩
  have hq1 : (buildPayment b₁ now₁ id₁).userId = some uid := by
    simp [buildPayment, hu₁]
  have hq2 : (buildPayment b₂ now₂ id₂).userId = some uid := by
    simp [buildPayment, hu₂]
  have e1 := createPaymentHandler_ok s b₁ now₁ id₁ h₁
  have e2 := createPaymentHandler_ok (createPaymentHandler s b₁ now₁ id₁).2
    b₂ now₂ id₂ h₂
  have hfinal : paymentsFor
      (createPaymentHandler (createPaymentHandler s b₁ now₁ id₁).2
        b₂ now₂ id₂).2 uid
      = [buildPayment b₁ now₁ id₁, buildPayment b₂ now₂ id₂] := by
    rw [e2, e1]
    simp only [paymentsFor] at h0 ⊢
    simp [List.filter_append, h0, hq1, hq2]
  rw [hfinal] at hperm
  exact hperm

/-- Witness for C5 amended at a concrete input (the natural-order response,
which lists the two created payments). -/
theorem listPayments_after_two_creates_witness :
    ((200, [buildPayment ⟨some "u1", some 10, some "USD", none, none⟩ 1 "pA",
            buildPayment ⟨some "u1", some 20, some "USD", none, none⟩ 2 "pB"])
      : Nat × List Payment).1 = 200
    ∧ ((200, [buildPayment ⟨some "u1", some 10, some "USD", none, none⟩ 1 "pA",
              buildPayment ⟨some "u1", some 20, some "USD", none, none⟩ 2 "pB"])
        : Nat × List Payment).2.Perm
        [buildPayment ⟨some "u1", some 10, some "USD", none, none⟩ 1 "pA",
         buildPayment ⟨some "u1", some 20, some "USD", none, none⟩ 2 "pB"] :=
  listPayments_after_two_creates ⟨[⟨"u1", "alice", "a@x.com", "pw"⟩], []⟩ "u1"
    ⟨some "u1", some 10, some "USD", none, none⟩
    ⟨some "u1", some 20, some "USD", none, none⟩
    1 2 "pA" "pB" (by decide) (by decide) rfl rfl (by decide)
    (200, [buildPayment ⟨some "u1", some 10, some "USD", none, none⟩ 1 "pA",
           buildPayment ⟨some "u1", some 20, some "USD", none, none⟩ 2 "pB"])
    ⟨rfl, by decide⟩

/-! ### C6 — empty listings and the missing 404 -/

/-- C6 counterexample: on an empty database (so "ghost" does not resolve to
an existing user), the listing handler answers (200, []) — status 200, not
NotFound (404) — contrary to the claim that an unknown userId yields 404. -/
theorem C6_counterexample :
    getUserPayments emptyState "ghost" = (200, [])
    ∧ isValidListResponse emptyState "ghost" (200, [])
    ∧ emptyState.users = []
    ∧ (200 : Nat) ≠ 404 := by
  refine ⟨rfl, ⟨rfl, ?_⟩, rfl, ?_⟩ <;> decide

/-- C6 amended: every valid listing response has status 200 (never 404,
whether or not the userId resolves to an existing user), and when no stored
payment matches the userId the body is the empty sequence, not an error. -/
theorem listPayments_empty_and_never_404
    (s : AppState) (uid : String) (resp : Nat × List Payment)
    (hresp : isValidListResponse s uid resp) :
    resp.1 = 200 ∧ resp.1 ≠ 404
    ∧ (paymentsFor s uid = [] → resp.2 = []) := by
  obtain ⟨h200, hperm⟩ := hresp
  refine ⟨h200, by rw [h200]; decide, ?_⟩
  intro h0
  rw [h0] at hperm
  exact hperm.eq_nil

/-- Witness for C6 amended: an existing user u1 with zero payments receives
the empty listing with status 200. -/
theorem listPayments_empty_and_never_404_witness :
    ((200, []) : Nat × List Payment).1 = 200
    ∧ ((200, []) : Nat × List Payment).1 ≠ 404
    ∧ (paymentsFor ⟨[⟨"u1", "alice", "a@x.com", "pw"⟩], []⟩ "u1" = [] →
        ((200, []) : Nat × List Payment).2 = []) :=
  listPayments_empty_and_never_404 ⟨[⟨"u1", "alice", "a@x.com", "pw"⟩], []⟩
    "u1" (200, []) ⟨rfl, by decide⟩

/-! ### C7 — duplicate registration -/

/-- C7 counterexample: with alice stored, registering the same username with
a fresh email is answered with status 400 (the catch block's status), not
409, carrying the duplicate-key error that names the username index. -/
theorem C7_counterexample :
    registerHandler ⟨[⟨"u1", "alice", "a@x.com", "pw"⟩], []⟩
        ⟨some "alice", some "b@x.com", some "pw2"⟩ "u2"
      = ((400, .duplicateKey "username"),
         ⟨[⟨"u1", "alice", "a@x.com", "pw"⟩], []⟩)
    ∧ (400 : Nat) ≠ 409 := by
  refine ⟨?_, ?_⟩ <;> decide

/-- C7 amended: when the body passes the required-field validators and the
username or the email collides with a stored user, register answers with
status 400 (every error is sent with 400 by the catch block, never 409),
leaves the store unchanged, and the error payload is the duplicate-key error
naming the collided index (username first, in schema order). -/
theorem register_duplicate_is_400
    (s : AppState) (b : RegisterBody) (newId : String)
    (hok : (reqStr b.username && reqStr b.email && reqStr b.password) = true)
    (hdup : s.users.any (fun u => u.username = b.username.getD "") = true
        ∨ (s.users.any (fun u => u.username = b.username.getD "") = false
           ∧ s.users.any (fun u => u.email = b.email.getD "") = true)) :
    (registerHandler s b newId).1.1 = 400
    ∧ (registerHandler s b newId).1.1 ≠ 409
    ∧ (registerHandler s b newId).2 = s
    ∧ (registerHandler s b newId).1.2
        = .duplicateKey
            (if s.users.any (fun u => u.username = b.username.getD "")
             then "username" else "email") := by
  rcases hdup with hdup | ⟨hno, hdup⟩
  · simp [registerHandler, hok, hdup]
  · simp [registerHandler, hok, hno, hdup]

/-- Witness for C7 amended: a concrete duplicate-email registration. -/
theorem register_duplicate_is_400_witness :
    (registerHandler ⟨[⟨"u1", "alice", "a@x.com", "pw"⟩], []⟩
        ⟨some "bob", some "a@x.com", some "pw2"⟩ "u2").1.1 = 400
    ∧ (registerHandler ⟨[⟨"u1", "alice", "a@x.com", "pw"⟩], []⟩
        ⟨some "bob", some "a@x.com", some "pw2"⟩ "u2").1.1 ≠ 409
    ∧ (registerHandler ⟨[⟨"u1", "alice", "a@x.com", "pw"⟩], []⟩
        ⟨some "bob", some "a@x.com", some "pw2"⟩ "u2").2
      = ⟨[⟨"u1", "alice", "a@x.com", "pw"⟩], []⟩
    ∧ (registerHandler ⟨[⟨"u1", "alice", "a@x.com", "pw"⟩], []⟩
        ⟨some "bob", some "a@x.com", some "pw2"⟩ "u2").1.2
      = .duplicateKey
          (if ([⟨"u1", "alice", "a@x.com", "pw"⟩] : List User).any
              (fun u => u.username = (some "bob").getD "")
           then "username" else "email") :=
  register_duplicate_is_400 ⟨[⟨"u1", "alice", "a@x.com", "pw"⟩], []⟩
    ⟨some "bob", some "a@x.com", some "pw2"⟩ "u2" (by decide)
    (Or.inr ⟨by decide, by decide⟩)

/-! ### C8 — round-trip of a created payment -/

/-- C8: a payment created from a body that names a user and omits `status`
is returned with 201, has status "pending", and belongs to the body of every
valid subsequent listing response for that user — the very same record, so
its id, amount, currency, status and createdAt are unchanged. -/
theorem createPayment_roundtrip
    (s : AppState) (b : PaymentBody) (now : Nat) (newId uid : String)
    (hok : paymentBodyOk b = true) (hu : b.userId = some uid)
    (hbs : b.status = none)
    (resp : Nat × List Payment)
    (hresp : isValidListResponse (createPaymentHandler s b now newId).2
      uid resp) :
    (createPaymentHandler s b now newId).1
        = (201, .created (buildPayment b now newId))
    ∧ (buildPayment b now newId).status = "pending"
    ∧ buildPayment b now newId ∈ resp.2 := by
  obtain ⟨h200, hperm⟩ := hresp
  have e := createPaymentHandler_ok s b now newId hok
  refine ⟨by rw [e], by simp [buildPayment, hbs], ?_⟩
  have hmem : buildPayment b now newId
      ∈ paymentsFor (createPaymentHandler s b now newId).2 uid := by
    rw [e]
    simp [paymentsFor, List.mem_filter, buildPayment, hu]
  exact hperm.mem_iff.mpr hmem

/-- Witness for C8 at a concrete input, with the natural-order listing
response. -/
theorem createPayment_roundtrip_witness :
    (createPaymentHandler emptyState ⟨some "u1", some 10, some "USD", none, none⟩
        7 "p1").1
      = (201, .created (buildPayment ⟨some "u1", some 10, some "USD", none, none⟩ 7 "p1"))
    ∧ (buildPayment ⟨some "u1", some 10, some "USD", none, none⟩ 7 "p1").status
      = "pending"
    ∧ buildPayment ⟨some "u1", some 10, some "USD", none, none⟩ 7 "p1"
      ∈ (getUserPayments
          (createPaymentHandler emptyState
            ⟨some "u1", some 10, some "USD", none, none⟩ 7 "p1").2 "u1").2 :=
  createPayment_roundtrip emptyState
    ⟨some "u1", some 10, some "USD", none, none⟩ 7 "p1" "u1"
    (by decide) rfl rfl
    (getUserPayments
      (createPaymentHandler emptyState
        ⟨some "u1", some 10, some "USD", none, none⟩ 7 "p1").2 "u1")
    ⟨rfl, by decide⟩

/-! ### C9 — the status enum invariant and the pending default -/

/-- C9: in every state reachable from the empty database through the
handlers, every stored payment's status is one of pending, completed,
failed; and a create whose body omits `status` yields a record whose status
is "pending" (the schema default). -/
theorem payment_status_enum_and_default
    (s : AppState) (b : PaymentBody) (now : Nat) (newId : String)
    (hs : Reachable s) (hbs : b.status = none) (hok : paymentBodyOk b = true) :
    s.payments.all (fun p => validStatus p.status) = true
    ∧ (createPaymentHandler s b now newId).1
        = (201, .created (buildPayment b now newId))
    ∧ (buildPayment b now newId).status = "pending" := by
  refine ⟨?_, by rw [createPaymentHandler_ok s b now newId hok],
    by simp [buildPayment, hbs]⟩
  induction hs with
  | init => rfl
  | register s' b' id' _ ih =>
      rw [registerHandler_payments]
      exact ih
  | create s' b' now' id' _ ih =>
      rw [createPaymentHandler_payments]
      split
      · next hok' =>
          have hv : validStatus (b'.status.getD "pending") = true := by
            simp [paymentBodyOk] at hok'
            exact hok'.2
          rw [List.all_append, ih]
          simp [buildPayment, hv]
      · exact ih

/-- Witness for C9 at a concrete reachable state (after one create) and a
concrete status-free creation. -/
theorem payment_status_enum_and_default_witness :
    (createPaymentHandler emptyState ⟨some "u1", some 10, some "USD", none, none⟩
        7 "pA").2.payments.all (fun p => validStatus p.status) = true
    ∧ (createPaymentHandler
        (createPaymentHandler emptyState
          ⟨some "u1", some 10, some "USD", none, none⟩ 7 "pA").2
        ⟨none, some 20, some "EUR", none, none⟩ 8 "pB").1
      = (201, .created (buildPayment ⟨none, some 20, some "EUR", none, none⟩ 8 "pB"))
    ∧ (buildPayment ⟨none, some 20, some "EUR", none, none⟩ 8 "pB").status
      = "pending" :=
  payment_status_enum_and_default _
    ⟨none, some 20, some "EUR", none, none⟩ 8 "pB"
    (Reachable.create emptyState ⟨some "u1", some 10, some "USD", none, none⟩
      7 "pA" Reachable.init)
    rfl (by decide)

end LeveragePay
